import Mathlib

/-!
Verification of the Athena backend proxy (an Express server relaying requests to
an upstream Python AI service).  The HTTP handlers of the server are embedded
shallowly below: each handler becomes a pure function from the request data and
an explicit model of the environment (the upload directory on disk, the outcome
of the upstream call) to the HTTP response it sends, together with the effects
it performs (filesystem update, what it forwards upstream).
-/

namespace Athena

/-- Outcome of an axios call to the upstream Python service.  A failure carries
what the handlers inspect on the error object: the optional HTTP status of the
upstream response, the optional detail field of its error payload, and the
error message of the exception itself. -/
inductive Upstream (α : Type) where
  | ok (data : α)
  | fail (respStatus : Option Nat) (detail : Option String) (message : String)
  deriving Repr, DecidableEq

/-- An HTTP response: status code and JSON body (res.json defaults to 200). -/
structure HttpResponse (β : Type) where
  status : Nat
  body : β
  deriving Repr, DecidableEq

/-- Model of the JavaScript expression a || b for an optional number: a is
falsy when it is absent or zero. -/
def jsOrNat (x : Option Nat) (d : Nat) : Nat :=
  match x with
  | some n => if n = 0 then d else n
  | none => d

/-- Model of the JavaScript expression a || b for an optional number that may
be negative (a JSON number field): absent or zero is falsy. -/
def jsOrInt (x : Option Int) (d : Int) : Int :=
  match x with
  | some n => if n = 0 then d else n
  | none => d

/-- Model of the JavaScript expression a || b for an optional string: absent or
empty is falsy. -/
def jsOrStr (x : Option String) (d : String) : String :=
  match x with
  | some s => if s = "" then d else s
  | none => d

/-- Model of the JavaScript test !x on an optional string field of a JSON
body: true when the field is absent or the empty string. -/
def jsFalsy : Option String → Bool
  | none => true
  | some s => s == ""

/-- path.join of a directory and one further segment (no segment here contains
separators or dot-dot, so normalisation is the plain concatenation). -/
def pathJoin (a b : String) : String := a ++ "/" ++ b

/-- path.resolve(dir, p) for an absolute dir: p itself when p is absolute,
otherwise dir/p. -/
def pathResolve (dir p : String) : String :=
  if p.startsWith "/" then p else dir ++ "/" ++ p

/-- UPLOADS_DIR = path.join(__dirname, '..', 'uploads'). -/
def uploadsDir (dirname : String) : String :=
  pathJoin (pathJoin dirname "..") "uploads"

/-- Array.prototype.join with separator ", " as used on the candidate path
list of the delete handler. -/
def joinComma : List String → String
  | [] => ""
  | [p] => p
  | p :: q :: ps => p ++ ", " ++ joinComma (q :: ps)

/-- The string s contains sub as a contiguous substring. -/
def containsSubstr (s sub : String) : Prop :=
  ∃ pre post, s = pre ++ sub ++ post

/- ### Health check handler (GET /api/health) -/

/-- Body of the health check response. -/
structure HealthBody where
  status : String
  python_api : String
  error : Option String
  timestamp : String
  deriving Repr, DecidableEq

/-- GET /api/health: ping the upstream /health endpoint; answer 200 with
python_api connected on success and 200 with python_api disconnected (plus the
error message) on failure.  now is the ISO timestamp taken at response time. -/
def healthHandler (ping : Upstream Unit) (now : String) : HttpResponse HealthBody :=
  match ping with
  | .ok _ =>
      ⟨200, { status := "ok", python_api := "connected", error := none, timestamp := now }⟩
  | .fail _ _ msg =>
      ⟨200, { status := "ok", python_api := "disconnected", error := some msg, timestamp := now }⟩

/- ### Delete handler (DELETE /api/uploads/:filename) -/

/-- Body of a delete response: either the success message with the filename, or
an error message. -/
inductive DeleteBody where
  | deleted (message filename : String)
  | failure (error : String)
  deriving Repr, DecidableEq

/-- The candidate paths the delete handler tries, in order:
path.join(UPLOADS_DIR, filename), path.join(__dirname, '..', 'uploads',
filename), path.resolve(UPLOADS_DIR, filename). -/
def possiblePaths (dirname filename : String) : List String :=
  [ pathJoin (uploadsDir dirname) filename,
    pathJoin (pathJoin (pathJoin dirname "..") "uploads") filename,
    pathResolve (uploadsDir dirname) filename ]

/-- DELETE /api/uploads/:filename.  fs is the set of file paths existing on
disk, filename the already-URI-decoded route parameter, upDelete the outcome of
the best-effort upstream delete call.  Returns the response and the filesystem
after the request.  The handler probes each candidate path with fs.access,
unlinks the first that exists (unlink of an existing path succeeds), then
notifies upstream, ignoring that outcome; with no existing candidate it answers
404 listing the checked paths. -/
def deleteHandler (dirname : String) (fs : List String) (filename : String)
    (upDelete : Upstream Unit) : HttpResponse DeleteBody × List String :=
  let paths := possiblePaths dirname filename
  match paths.find? (fun p => fs.contains p) with
  | none =>
      (⟨404, .failure ("File not found: " ++ filename ++ ". Checked paths: " ++ joinComma paths)⟩,
       fs)
  | some filePath =>
      let fs' := fs.erase filePath
      match upDelete with
      | .ok _ => (⟨200, .deleted "File deleted successfully" filename⟩, fs')
      | .fail _ _ _ => (⟨200, .deleted "File deleted successfully" filename⟩, fs')

/- ### List handler (GET /api/uploads) -/

/-- What fs.stat reports about a file in the uploads directory: its size in
bytes and its mtime in milliseconds (Date.prototype.getTime). -/
structure FileStat where
  size : Nat
  mtimeMs : Int
  deriving Repr, DecidableEq

/-- One record of the fallback listing: name, storage path, size in bytes,
updated = mtime.getTime() / 1000 (seconds, exact division). -/
structure FileRecord where
  name : String
  path : String
  size : Nat
  updated : ℚ
  deriving Repr, DecidableEq

/-- Body of the list response: upstream data passed through, a local fallback
listing, or an error. -/
inductive ListBody (α : Type) where
  | upstream (data : α)
  | fallback (files : List FileRecord)
  | failure (error : String)
  deriving Repr, DecidableEq

/-- fs.stat lookup in the modelled uploads directory (a list of name/stat
pairs); only ever applied to names obtained from the directory itself. -/
def statOf (dir : List (String × FileStat)) (name : String) : FileStat :=
  match dir.find? (fun e => e.1 == name) with
  | some e => e.2
  | none => ⟨0, 0⟩

/-- GET /api/uploads: delegate to the upstream /uploads endpoint; when that
call fails, read the uploads directory, keep the names ending in .pdf, and
answer 200 with one record per kept file. -/
def listHandler {α : Type} (dirname : String) (dir : List (String × FileStat))
    (up : Upstream α) : HttpResponse (ListBody α) :=
  match up with
  | .ok d => ⟨200, .upstream d⟩
  | .fail _ _ _ =>
      let files := dir.map Prod.fst
      let fileList := (files.filter (fun f => f.endsWith ".pdf")).map (fun filename =>
        let filePath := pathJoin (uploadsDir dirname) filename
        let stats := statOf dir filename
        { name := filename, path := filePath, size := stats.size,
          updated := (stats.mtimeMs : ℚ) / 1000 : FileRecord })
      ⟨200, .fallback fileList⟩

/- ### Multer upload middleware and ingest handler (POST /api/ingest) -/

/-- A file arriving in the multipart request, as multer sees it. -/
structure IncomingFile where
  originalname : String
  mimetype : String
  size : Nat
  deriving Repr, DecidableEq

/-- A file multer has stored on disk: original name and storage path. -/
structure StoredFile where
  originalname : String
  path : String
  deriving Repr, DecidableEq

/-- path.extname: the extension from the last dot of the name onwards, empty
when the name has no dot. -/
def extname (s : String) : String :=
  let parts := s.splitOn "."
  match parts with
  | [] => ""
  | [_] => ""
  | _ => "." ++ parts.getLastD ""

/-- The storage filename multer's diskStorage generates for the i-th file:
uniqueSuffix + path.extname(originalname), where gen i models the
Date.now() + '-' + random suffix drawn for that file. -/
def storedName (gen : Nat → String) (i : Nat) (original : String) : String :=
  gen i ++ extname original

/-- The multer middleware configured at lines 33-43 and mounted as
upload.array('files', 10): files are processed in order; a file beyond
maxCount aborts the request with an unexpected-field error, a file whose MIME
type is not application/pdf aborts it with the fileFilter error, a file larger
than sizeLimit aborts it with a file-too-large error; on any error
already-stored files are removed again, so an aborted request stores nothing.
i is the index of the next file. -/
def multerGo (gen : Nat → String) (dirname : String) (maxCount sizeLimit : Nat) :
    Nat → List IncomingFile → Except String (List StoredFile)
  | _, [] => .ok []
  | i, f :: fs =>
      if maxCount ≤ i then .error "Unexpected field"
      else if f.mimetype ≠ "application/pdf" then .error "Only PDF files are allowed"
      else if sizeLimit < f.size then .error "File too large"
      else
        match multerGo gen dirname maxCount sizeLimit (i + 1) fs with
        | .error e => .error e
        | .ok rest =>
            .ok ({ originalname := f.originalname,
                   path := pathJoin (uploadsDir dirname) (storedName gen i f.originalname) } :: rest)

/-- 50MB limit of the upload configuration: 50 * 1024 * 1024 bytes. -/
def ingestSizeLimit : Nat := 50 * 1024 * 1024

/-- upload.array('files', 10) with the configured filter and size limit. -/
def ingestUpload (gen : Nat → String) (dirname : String)
    (files : List IncomingFile) : Except String (List StoredFile) :=
  multerGo gen dirname 10 ingestSizeLimit 0 files

/-- One entry of the degraded ingest response: original file name, local
storage path, and the literal page count "unknown". -/
structure IngestEntry where
  file : String
  path : String
  ingested_pages : String
  deriving Repr, DecidableEq

/-- Body of the ingest response. -/
inductive IngestBody (α : Type) where
  | upstream (data : α)
  | fallback (ingested : List IngestEntry)
  | failure (error : String)
  deriving Repr, DecidableEq

/-- POST /api/ingest, after multer succeeded: req.files is the list of stored
files.  An empty list is answered 400 without touching upstream; otherwise the
files are re-streamed to the upstream /ingest endpoint and its data passed
through, and when that call fails the handler still answers 200 with one entry
per file carrying the original name, the local path and ingested_pages
"unknown".  The boolean records whether anything was forwarded upstream. -/
def ingestHandler {α : Type} (files : List StoredFile) (up : Upstream α) :
    HttpResponse (IngestBody α) × Bool :=
  if files.isEmpty then
    (⟨400, .failure "No files uploaded"⟩, false)
  else
    match up with
    | .ok d => (⟨200, .upstream d⟩, true)
    | .fail _ _ _ =>
        (⟨200, .fallback (files.map (fun f =>
          { file := f.originalname, path := f.path, ingested_pages := "unknown" }))⟩, true)

/- ### Passthrough handlers -/

/-- Body of a passthrough response: upstream data or an error message. -/
inductive PassBody (α : Type) where
  | upstream (data : α)
  | failure (error : String)
  deriving Repr, DecidableEq

/-- The error mapping shared by all passthrough handlers:
res.status(error.response?.status || 500).json({ error:
error.response?.data?.detail || error.message }). -/
def passErrorResponse {α : Type} (respStatus : Option Nat) (detail : Option String)
    (message : String) : HttpResponse (PassBody α) :=
  ⟨jsOrNat respStatus 500, .failure (jsOrStr detail message)⟩

/-- Request body of POST /api/document/ask. -/
structure AskReq where
  path : Option String
  question : Option String
  deriving Repr, DecidableEq

/-- What /api/document/ask forwards upstream. -/
structure AskForward where
  path : String
  question : String
  deriving Repr, DecidableEq

/-- POST /api/document/ask: 400 when path or question is missing (JS falsy),
otherwise forward both and pass the upstream data or mapped error back.
Returns the response and what was forwarded (none when nothing was). -/
def askHandler {α : Type} (body : AskReq) (up : Upstream α) :
    HttpResponse (PassBody α) × Option AskForward :=
  if jsFalsy body.path || jsFalsy body.question then
    (⟨400, .failure "Document path and question are required"⟩, none)
  else
    let fwd : AskForward := ⟨body.path.getD "", body.question.getD ""⟩
    match up with
    | .ok d => (⟨200, .upstream d⟩, some fwd)
    | .fail st dt msg => (passErrorResponse st dt msg, some fwd)

/-- Request body of POST /api/synthesis. -/
structure SynthReq where
  query : Option String
  deriving Repr, DecidableEq

/-- POST /api/synthesis: 400 when query is missing, otherwise forward the
query and pass the upstream data or mapped error back. -/
def synthesisHandler {α : Type} (body : SynthReq) (up : Upstream α) :
    HttpResponse (PassBody α) × Option String :=
  if jsFalsy body.query then
    (⟨400, .failure "Query is required"⟩, none)
  else
    let fwd := body.query.getD ""
    match up with
    | .ok d => (⟨200, .upstream d⟩, some fwd)
    | .fail st dt msg => (passErrorResponse st dt msg, some fwd)

/-- Request body of POST /api/layman. -/
structure LaymanReq where
  path : Option String
  deriving Repr, DecidableEq

/-- POST /api/layman: 400 when path is missing, otherwise forward the path and
pass the upstream data or mapped error back. -/
def laymanHandler {α : Type} (body : LaymanReq) (up : Upstream α) :
    HttpResponse (PassBody α) × Option String :=
  if jsFalsy body.path then
    (⟨400, .failure "Document path is required"⟩, none)
  else
    let fwd := body.path.getD ""
    match up with
    | .ok d => (⟨200, .upstream d⟩, some fwd)
    | .fail st dt msg => (passErrorResponse st dt msg, some fwd)

/-- Request body of POST /api/related-papers: document path and optional
numeric limit. -/
structure RelatedReq where
  path : Option String
  limit : Option Int
  deriving Repr, DecidableEq

/-- What /api/related-papers forwards upstream. -/
structure RelatedForward where
  path : String
  limit : Int
  deriving Repr, DecidableEq

/-- POST /api/related-papers: 400 when path is missing, otherwise forward
{ path, limit: limit || 10 } and pass the upstream data or mapped error
back. -/
def relatedHandler {α : Type} (body : RelatedReq) (up : Upstream α) :
    HttpResponse (PassBody α) × Option RelatedForward :=
  if jsFalsy body.path then
    (⟨400, .failure "Document path is required"⟩, none)
  else
    let fwd : RelatedForward := ⟨body.path.getD "", jsOrInt body.limit 10⟩
    match up with
    | .ok d => (⟨200, .upstream d⟩, some fwd)
    | .fail st dt msg => (passErrorResponse st dt msg, some fwd)

/-- Request body of POST /api/semantic-scholar/search: query and optional
numeric limit. -/
structure SearchReq where
  query : Option String
  limit : Option Int
  deriving Repr, DecidableEq

/-- What /api/semantic-scholar/search forwards upstream. -/
structure SearchForward where
  query : String
  limit : Int
  deriving Repr, DecidableEq

/-- POST /api/semantic-scholar/search: 400 when query is missing, otherwise
forward { query, limit: limit || 10 } and pass the upstream data or mapped
error back. -/
def searchHandler {α : Type} (body : SearchReq) (up : Upstream α) :
    HttpResponse (PassBody α) × Option SearchForward :=
  if jsFalsy body.query then
    (⟨400, .failure "Search query is required"⟩, none)
  else
    let fwd : SearchForward := ⟨body.query.getD "", jsOrInt body.limit 10⟩
    match up with
    | .ok d => (⟨200, .upstream d⟩, some fwd)
    | .fail st dt msg => (passErrorResponse st dt msg, some fwd)

/-! ### Theorems -/

/-- Claim C6: for every health-check request, whether or not the upstream
service responds within its timeout, the proxy answers with a successful JSON
response whose status field is ok and whose python_api field is connected when
the upstream ping succeeded and disconnected otherwise; the health check never
fails the request itself. -/
theorem health_never_fails (now msg : String) (st : Option Nat) (dt : Option String) :
    healthHandler (Upstream.ok ()) now =
      ⟨200, { status := "ok", python_api := "connected", error := none, timestamp := now }⟩ ∧
    healthHandler (Upstream.fail st dt msg) now =
      ⟨200, { status := "ok", python_api := "disconnected", error := some msg, timestamp := now }⟩ :=
  ⟨rfl, rfl⟩

/-- Claim C9: an ingest request that carries zero files is answered with HTTP
400 and the error message No files uploaded, and nothing is forwarded to the
upstream ingest endpoint. -/
theorem ingest_no_files (α : Type) (up : Upstream α) :
    ingestHandler [] up = (⟨400, IngestBody.failure "No files uploaded"⟩, false) :=
  rfl

/-- Claim C2: for every request to the question-answering, synthesis,
summarization, related-papers, or citation-search endpoint that omits a
required field, the proxy responds with HTTP 400 and a JSON body containing an
error message, and does not forward anything upstream or crash. -/
theorem required_field_missing_400 (α : Type) (up : Upstream α)
    (p q : Option String) (l : Option Int) :
    askHandler ⟨none, q⟩ up =
      (⟨400, PassBody.failure "Document path and question are required"⟩, none) ∧
    askHandler ⟨p, none⟩ up =
      (⟨400, PassBody.failure "Document path and question are required"⟩, none) ∧
    synthesisHandler ⟨none⟩ up = (⟨400, PassBody.failure "Query is required"⟩, none) ∧
    laymanHandler ⟨none⟩ up = (⟨400, PassBody.failure "Document path is required"⟩, none) ∧
    relatedHandler ⟨none, l⟩ up = (⟨400, PassBody.failure "Document path is required"⟩, none) ∧
    searchHandler ⟨none, l⟩ up = (⟨400, PassBody.failure "Search query is required"⟩, none) := by
  refine ⟨?_, ?_, rfl, rfl, rfl, rfl⟩ <;>
    simp [askHandler, jsFalsy]

/-- Claim C10: for every related-papers and citation-search request, when the
caller omits the limit field or supplies a falsy value for it (such as 0), the
proxy forwards limit 10 to the upstream service; any truthy supplied limit is
forwarded unchanged. -/
theorem limit_defaults_to_ten (α : Type) (p q : String) (up : Upstream α)
    (hp : p ≠ "") (hq : q ≠ "") :
    (∀ lim : Option Int, lim = none ∨ lim = some 0 →
      (relatedHandler ⟨some p, lim⟩ up).2 = some ⟨p, 10⟩ ∧
      (searchHandler ⟨some q, lim⟩ up).2 = some ⟨q, 10⟩) ∧
    (∀ n : Int, n ≠ 0 →
      (relatedHandler ⟨some p, some n⟩ up).2 = some ⟨p, n⟩ ∧
      (searchHandler ⟨some q, some n⟩ up).2 = some ⟨q, n⟩) := by
  constructor
  · rintro lim (rfl | rfl) <;>
      cases up <;> simp [relatedHandler, searchHandler, jsFalsy, jsOrInt, hp, hq]
  · intro n hn
    cases up <;> simp [relatedHandler, searchHandler, jsFalsy, jsOrInt, hp, hq, hn]

/-- Witness for limit_defaults_to_ten at concrete inputs. -/
theorem limit_defaults_to_ten_witness :
    (∀ lim : Option Int, lim = none ∨ lim = some 0 →
      (relatedHandler ⟨some "d.pdf", lim⟩ (Upstream.ok 7)).2 = some ⟨"d.pdf", 10⟩ ∧
      (searchHandler ⟨some "transformers", lim⟩ (Upstream.ok 7)).2 = some ⟨"transformers", 10⟩) ∧
    (∀ n : Int, n ≠ 0 →
      (relatedHandler ⟨some "d.pdf", some n⟩ (Upstream.ok 7)).2 = some ⟨"d.pdf", n⟩ ∧
      (searchHandler ⟨some "transformers", some n⟩ (Upstream.ok 7)).2 = some ⟨"transformers", n⟩) :=
  limit_defaults_to_ten Nat "d.pdf" "transformers" (Upstream.ok 7)
    (by decide) (by decide)

/-- Claim C5: for every ingest request carrying at least one accepted file, if
the forwarding call to the upstream ingest endpoint fails, the proxy still
responds successfully with one entry per uploaded file giving the original
name and local storage path, with the ingested page count reported as
unknown. -/
theorem ingest_upstream_failure_degrades (α : Type) (files : List StoredFile)
    (st : Option Nat) (dt : Option String) (msg : String) (h : files ≠ []) :
    (ingestHandler files (Upstream.fail st dt msg : Upstream α)).1.status = 200 ∧
    ∃ l, (ingestHandler files (Upstream.fail st dt msg : Upstream α)).1.body =
        IngestBody.fallback l ∧
      l.length = files.length ∧
      List.Forall₂ (fun (f : StoredFile) (e : IngestEntry) =>
        e.file = f.originalname ∧ e.path = f.path ∧ e.ingested_pages = "unknown") files l := by
  have hne : files.isEmpty = false := by
    cases files with
    | nil => exact absurd rfl h
    | cons a as => rfl
  refine ⟨by simp [ingestHandler, hne], ?_⟩
  refine ⟨files.map (fun f => ⟨f.originalname, f.path, "unknown"⟩), by simp [ingestHandler, hne], by simp, ?_⟩
  rw [List.forall₂_map_right_iff]
  exact List.forall₂_same.mpr (fun f _ => ⟨rfl, rfl, rfl⟩)

/-- Witness for ingest_upstream_failure_degrades at a concrete input. -/
theorem ingest_upstream_failure_degrades_witness :
    (ingestHandler [⟨"a.pdf", "/u/1-2.pdf"⟩]
        (Upstream.fail none none "connect ECONNREFUSED" : Upstream Nat)).1.status = 200 ∧
    ∃ l, (ingestHandler [⟨"a.pdf", "/u/1-2.pdf"⟩]
        (Upstream.fail none none "connect ECONNREFUSED" : Upstream Nat)).1.body =
        IngestBody.fallback l ∧
      l.length = [(⟨"a.pdf", "/u/1-2.pdf"⟩ : StoredFile)].length ∧
      List.Forall₂ (fun (f : StoredFile) (e : IngestEntry) =>
        e.file = f.originalname ∧ e.path = f.path ∧ e.ingested_pages = "unknown")
        [⟨"a.pdf", "/u/1-2.pdf"⟩] l :=
  ingest_upstream_failure_degrades Nat [⟨"a.pdf", "/u/1-2.pdf"⟩] none none
    "connect ECONNREFUSED" (by simp)

/-- Claim C3: for every delete-by-filename request, the proxy tries several
candidate path constructions and deletes the first one that exists; when none
of the candidate paths exists, it responds with HTTP 404 whose error message
lists every checked path, and no file is deleted (the upload store is
unchanged). -/
theorem delete_not_found_404 (dirname : String) (fs : List String) (filename : String)
    (up : Upstream Unit) (h : ∀ p ∈ possiblePaths dirname filename, p ∉ fs) :
    (deleteHandler dirname fs filename up).1.status = 404 ∧
    (∃ msg, (deleteHandler dirname fs filename up).1.body = DeleteBody.failure msg ∧
      ∀ p ∈ possiblePaths dirname filename, containsSubstr msg p) ∧
    (deleteHandler dirname fs filename up).2 = fs := by
  have hfind : (possiblePaths dirname filename).find? (fun p => fs.contains p) = none := by
    rw [List.find?_eq_none]
    intro p hp
    simpa using h p hp
  refine ⟨by simp only [deleteHandler, hfind], ?_, by simp only [deleteHandler, hfind]⟩
  refine ⟨"File not found: " ++ filename ++ ". Checked paths: " ++
    joinComma (possiblePaths dirname filename), by simp only [deleteHandler, hfind], ?_⟩
  intro p hp
  simp only [possiblePaths, List.mem_cons, List.not_mem_nil, or_false] at hp
  rcases hp with rfl | rfl | rfl
  · exact ⟨"File not found: " ++ filename ++ ". Checked paths: ",
      ", " ++ pathJoin (pathJoin (pathJoin dirname "..") "uploads") filename ++ ", " ++
        pathResolve (uploadsDir dirname) filename,
      by simp [possiblePaths, joinComma, String.append_assoc]⟩
  · exact ⟨"File not found: " ++ filename ++ ". Checked paths: " ++
        pathJoin (uploadsDir dirname) filename ++ ", ",
      ", " ++ pathResolve (uploadsDir dirname) filename,
      by simp [possiblePaths, joinComma, String.append_assoc]⟩
  · exact ⟨"File not found: " ++ filename ++ ". Checked paths: " ++
        pathJoin (uploadsDir dirname) filename ++ ", " ++
        pathJoin (pathJoin (pathJoin dirname "..") "uploads") filename ++ ", ",
      "",
      by simp [possiblePaths, joinComma, String.append_assoc]⟩

/-- Witness for delete_not_found_404 at a concrete input. -/
theorem delete_not_found_404_witness :
    (deleteHandler "/srv/backend" [] "ghost.pdf" (Upstream.ok ())).1.status = 404 ∧
    (∃ msg, (deleteHandler "/srv/backend" [] "ghost.pdf" (Upstream.ok ())).1.body =
        DeleteBody.failure msg ∧
      ∀ p ∈ possiblePaths "/srv/backend" "ghost.pdf", containsSubstr msg p) ∧
    (deleteHandler "/srv/backend" [] "ghost.pdf" (Upstream.ok ())).2 = [] :=
  delete_not_found_404 "/srv/backend" [] "ghost.pdf" (Upstream.ok ())
    (by intro p _ hp; exact (List.not_mem_nil p) hp)

/-- Claim C7: for every delete-by-filename request where a local file is found
and successfully unlinked, the proxy responds with a success message containing
the filename even when the best-effort upstream delete notification fails; the
upstream failure is ignored and does not change the response. -/
theorem delete_ignores_upstream_outcome (dirname : String) (fs : List String)
    (filename : String) (up up' : Upstream Unit)
    (h : ∃ p ∈ possiblePaths dirname filename, p ∈ fs) :
    (deleteHandler dirname fs filename up).1.status = 200 ∧
    (deleteHandler dirname fs filename up).1.body =
      DeleteBody.deleted "File deleted successfully" filename ∧
    deleteHandler dirname fs filename up = deleteHandler dirname fs filename up' := by
  have hsome : ((possiblePaths dirname filename).find? (fun p => fs.contains p)).isSome := by
    rw [List.find?_isSome]
    obtain ⟨p, hp, hpfs⟩ := h
    exact ⟨p, hp, by simpa using hpfs⟩
  obtain ⟨fp, hfp⟩ := Option.isSome_iff_exists.mp hsome
  cases up <;> cases up' <;>
    simp only [deleteHandler, hfp] <;>
    exact ⟨trivial, trivial, trivial⟩

/-- Witness for delete_ignores_upstream_outcome: the file exists under the
first candidate path; the upstream delete call fails but the response is the
success message. -/
theorem delete_ignores_upstream_outcome_witness :
    (deleteHandler "/srv/backend" ["/srv/backend/../uploads/a.pdf"] "a.pdf"
        (Upstream.fail none none "timeout")).1.status = 200 ∧
    (deleteHandler "/srv/backend" ["/srv/backend/../uploads/a.pdf"] "a.pdf"
        (Upstream.fail none none "timeout")).1.body =
      DeleteBody.deleted "File deleted successfully" "a.pdf" ∧
    deleteHandler "/srv/backend" ["/srv/backend/../uploads/a.pdf"] "a.pdf"
        (Upstream.fail none none "timeout") =
      deleteHandler "/srv/backend" ["/srv/backend/../uploads/a.pdf"] "a.pdf"
        (Upstream.ok ()) :=
  delete_ignores_upstream_outcome "/srv/backend" ["/srv/backend/../uploads/a.pdf"] "a.pdf"
    (Upstream.fail none none "timeout") (Upstream.ok ())
    ⟨"/srv/backend/../uploads/a.pdf", by decide, by decide⟩

/-- The distributed error-mapping contract of a passthrough response: the
upstream HTTP status is carried over when present (and nonzero, JS falsiness),
500 otherwise; the upstream payload detail is carried over when present (and
nonempty), the local exception message otherwise. -/
def mapsUpstreamError {α : Type} (st : Option Nat) (dt : Option String) (msg : String)
    (r : HttpResponse (PassBody α)) : Prop :=
  (∀ s, st = some s → s ≠ 0 → r.status = s) ∧
  (st = none → r.status = 500) ∧
  (∀ t, dt = some t → t ≠ "" → r.body = PassBody.failure t) ∧
  (dt = none → r.body = PassBody.failure msg)

/-- passErrorResponse satisfies the error-mapping contract. -/
lemma passErrorResponse_maps (α : Type) (st : Option Nat) (dt : Option String)
    (msg : String) :
    mapsUpstreamError st dt msg (passErrorResponse st dt msg : HttpResponse (PassBody α)) := by
  refine ⟨?_, ?_, ?_, ?_⟩
  · rintro s rfl hs
    simp [passErrorResponse, jsOrNat, hs]
  · rintro rfl
    simp [passErrorResponse, jsOrNat]
  · rintro t rfl ht
    simp [passErrorResponse, jsOrStr, ht]
  · rintro rfl
    simp [passErrorResponse, jsOrStr]

/-- Claim C8: for every passthrough request whose required fields are present,
a failure of the upstream call is mapped to a response carrying the upstream
HTTP status and the upstream error payload detail message when those are
present, and otherwise HTTP 500 with the local error message. -/
theorem passthrough_maps_upstream_error (α : Type) (p q : String)
    (hp : p ≠ "") (hq : q ≠ "") (l : Option Int)
    (st : Option Nat) (dt : Option String) (msg : String) :
    mapsUpstreamError st dt msg
      ((askHandler ⟨some p, some q⟩ (Upstream.fail st dt msg : Upstream α)).1) ∧
    mapsUpstreamError st dt msg
      ((synthesisHandler ⟨some q⟩ (Upstream.fail st dt msg : Upstream α)).1) ∧
    mapsUpstreamError st dt msg
      ((laymanHandler ⟨some p⟩ (Upstream.fail st dt msg : Upstream α)).1) ∧
    mapsUpstreamError st dt msg
      ((relatedHandler ⟨some p, l⟩ (Upstream.fail st dt msg : Upstream α)).1) ∧
    mapsUpstreamError st dt msg
      ((searchHandler ⟨some q, l⟩ (Upstream.fail st dt msg : Upstream α)).1) := by
  have hask : (askHandler ⟨some p, some q⟩ (Upstream.fail st dt msg : Upstream α)).1 =
      passErrorResponse st dt msg := by
    simp [askHandler, jsFalsy, hp, hq]
  have hsyn : (synthesisHandler ⟨some q⟩ (Upstream.fail st dt msg : Upstream α)).1 =
      passErrorResponse st dt msg := by
    simp [synthesisHandler, jsFalsy, hq]
  have hlay : (laymanHandler ⟨some p⟩ (Upstream.fail st dt msg : Upstream α)).1 =
      passErrorResponse st dt msg := by
    simp [laymanHandler, jsFalsy, hp]
  have hrel : (relatedHandler ⟨some p, l⟩ (Upstream.fail st dt msg : Upstream α)).1 =
      passErrorResponse st dt msg := by
    simp [relatedHandler, jsFalsy, hp]
  have hsea : (searchHandler ⟨some q, l⟩ (Upstream.fail st dt msg : Upstream α)).1 =
      passErrorResponse st dt msg := by
    simp [searchHandler, jsFalsy, hq]
  rw [hask, hsyn, hlay, hrel, hsea]
  exact ⟨passErrorResponse_maps α st dt msg, passErrorResponse_maps α st dt msg,
    passErrorResponse_maps α st dt msg, passErrorResponse_maps α st dt msg,
    passErrorResponse_maps α st dt msg⟩

/-- Witness for passthrough_maps_upstream_error at concrete inputs. -/
theorem passthrough_maps_upstream_error_witness :
    mapsUpstreamError (some 404) (some "document not found") "Request failed"
      ((askHandler ⟨some "d.pdf", some "why"⟩
        (Upstream.fail (some 404) (some "document not found") "Request failed" : Upstream Nat)).1) ∧
    mapsUpstreamError (some 404) (some "document not found") "Request failed"
      ((synthesisHandler ⟨some "why"⟩
        (Upstream.fail (some 404) (some "document not found") "Request failed" : Upstream Nat)).1) ∧
    mapsUpstreamError (some 404) (some "document not found") "Request failed"
      ((laymanHandler ⟨some "d.pdf"⟩
        (Upstream.fail (some 404) (some "document not found") "Request failed" : Upstream Nat)).1) ∧
    mapsUpstreamError (some 404) (some "document not found") "Request failed"
      ((relatedHandler ⟨some "d.pdf", none⟩
        (Upstream.fail (some 404) (some "document not found") "Request failed" : Upstream Nat)).1) ∧
    mapsUpstreamError (some 404) (some "document not found") "Request failed"
      ((searchHandler ⟨some "why", none⟩
        (Upstream.fail (some 404) (some "document not found") "Request failed" : Upstream Nat)).1) :=
  passthrough_maps_upstream_error Nat "d.pdf" "why" (by decide) (by decide) none
    (some 404) (some "document not found") "Request failed"

/-- A name taken from the directory listing stats to an actual directory
entry: the pair of the name and its statOf lookup is in the directory. -/
lemma statOf_pair_mem (dir : List (String × FileStat)) (name : String)
    (h : name ∈ dir.map Prod.fst) : (name, statOf dir name) ∈ dir := by
  induction dir with
  | nil => simp at h
  | cons hd tl ih =>
      obtain ⟨a, b⟩ := hd
      by_cases hbe : a = name
      · subst hbe
        have hfind : ((a, b) :: tl).find? (fun e => e.1 == a) = some (a, b) :=
          List.find?_cons_of_pos _ (by simp)
        simp [statOf, hfind]
      · have hfind : ((a, b) :: tl).find? (fun e => e.1 == name) = tl.find? (fun e => e.1 == name) :=
          List.find?_cons_of_neg _ (by simp [hbe])
        have hmem : name ∈ tl.map Prod.fst := by
          rcases List.mem_cons.mp h with heq | htl
          · exact absurd heq.symm (by simpa using hbe)
          · exact htl
        have := ih hmem
        rw [statOf, hfind, ← statOf]
        exact List.mem_cons_of_mem _ this

/-- Claim C1: for every list-uploads request, if the upstream listing call
fails, the proxy responds successfully (without raising) with the contents of
the local upload directory filtered to filenames ending in .pdf, each record
carrying the file name, its storage path, its size in bytes, and its
last-modified time. -/
theorem list_falls_back_to_local (α : Type) (dirname : String)
    (dir : List (String × FileStat)) (st : Option Nat) (dt : Option String) (msg : String) :
    ∃ l, listHandler dirname dir (Upstream.fail st dt msg : Upstream α) =
        ⟨200, ListBody.fallback l⟩ ∧
      (∀ r ∈ l, r.name.endsWith ".pdf" = true ∧
        r.path = pathJoin (uploadsDir dirname) r.name ∧
        ∃ s : FileStat, (r.name, s) ∈ dir ∧ r.size = s.size ∧
          r.updated = (s.mtimeMs : ℚ) / 1000) ∧
      (∀ e ∈ dir, e.1.endsWith ".pdf" = true → ∃ r ∈ l, r.name = e.1) := by
  refine ⟨_, rfl, ?_, ?_⟩
  · intro r hr
    simp only [List.mem_map, List.mem_filter] at hr
    obtain ⟨filename, ⟨hmem, hpdf⟩, rfl⟩ := hr
    exact ⟨hpdf, rfl, statOf dir filename,
      statOf_pair_mem dir filename (List.mem_map.mpr hmem), rfl, rfl⟩
  · intro e he hpdf
    exact ⟨_, List.mem_map.mpr
      ⟨e.1, List.mem_filter.mpr ⟨List.mem_map.mpr ⟨e, he, rfl⟩, hpdf⟩, rfl⟩, rfl⟩

/-- Witness for list_falls_back_to_local at a concrete input. -/
theorem list_falls_back_to_local_witness :
    ∃ l, listHandler "/srv/backend" [("a.pdf", ⟨3, 2000⟩)]
        (Upstream.fail (some 502) none "bad gateway" : Upstream Nat) =
        ⟨200, ListBody.fallback l⟩ ∧
      (∀ r ∈ l, r.name.endsWith ".pdf" = true ∧
        r.path = pathJoin (uploadsDir "/srv/backend") r.name ∧
        ∃ s : FileStat, (r.name, s) ∈ [(("a.pdf" : String), (⟨3, 2000⟩ : FileStat))] ∧
          r.size = s.size ∧ r.updated = (s.mtimeMs : ℚ) / 1000) ∧
      (∀ e ∈ [(("a.pdf" : String), (⟨3, 2000⟩ : FileStat))], e.1.endsWith ".pdf" = true →
        ∃ r ∈ l, r.name = e.1) :=
  list_falls_back_to_local Nat "/srv/backend" [("a.pdf", ⟨3, 2000⟩)] (some 502) none "bad gateway"

/-- Soundness of an accepted multer batch: the stored list has one entry per
incoming file, acceptance implies the count bound, and every file passed the
type filter and the size limit. -/
lemma multerGo_ok_sound (gen : Nat → String) (dirname : String)
    (maxCount sizeLimit : Nat) (files : List IncomingFile) :
    ∀ (i : Nat) (stored : List StoredFile),
      multerGo gen dirname maxCount sizeLimit i files = Except.ok stored →
      stored.length = files.length ∧
      (files ≠ [] → i + files.length ≤ maxCount) ∧
      (∀ f ∈ files, f.mimetype = "application/pdf" ∧ f.size ≤ sizeLimit) := by
  induction files with
  | nil =>
      intro i stored h
      simp only [multerGo] at h
      obtain rfl : ([] : List StoredFile) = stored := by simpa using h
      exact ⟨rfl, fun hne => absurd rfl hne, by simp⟩
  | cons f fs ih =>
      intro i stored h
      simp only [multerGo] at h
      by_cases h1 : maxCount ≤ i
      · rw [if_pos h1] at h
        exact absurd h (by simp)
      · rw [if_neg h1] at h
        by_cases h2 : f.mimetype = "application/pdf"
        · rw [if_neg (by simp [h2])] at h
          by_cases h3 : sizeLimit < f.size
          · rw [if_pos h3] at h
            exact absurd h (by simp)
          · rw [if_neg h3] at h
            cases hrec : multerGo gen dirname maxCount sizeLimit (i + 1) fs with
            | error e =>
                rw [hrec] at h
                exact absurd h (by simp)
            | ok rest =>
                rw [hrec] at h
                obtain rfl : _ :: rest = stored := by simpa using h
                obtain ⟨hlen, hcap, hall⟩ := ih (i + 1) rest hrec
                refine ⟨by simp [hlen], ?_, ?_⟩
                · intro _
                  cases fs with
                  | nil => simp; omega
                  | cons g gs =>
                      have := hcap (by simp)
                      simp only [List.length_cons] at this ⊢
                      omega
                · intro g hg
                  rcases List.mem_cons.mp hg with rfl | hgfs
                  · exact ⟨h2, Nat.le_of_not_lt h3⟩
                  · exact hall g hgfs
        · rw [if_pos (by simp [h2])] at h
          exact absurd h (by simp)

/-- A batch containing a file that violates the type filter or the size limit
is always aborted with an error. -/
lemma multerGo_violating_errors (gen : Nat → String) (dirname : String)
    (maxCount sizeLimit : Nat) (files : List IncomingFile) :
    ∀ i : Nat,
      (∃ f ∈ files, f.mimetype ≠ "application/pdf" ∨ sizeLimit < f.size) →
      ∃ e, multerGo gen dirname maxCount sizeLimit i files = Except.error e := by
  induction files with
  | nil =>
      intro i h
      simp at h
  | cons f fs ih =>
      intro i h
      by_cases h1 : maxCount ≤ i
      · exact ⟨"Unexpected field", by simp [multerGo, h1]⟩
      · by_cases h2 : f.mimetype = "application/pdf"
        · by_cases h3 : sizeLimit < f.size
          · exact ⟨"File too large", by simp [multerGo, h1, h2, h3]⟩
          · obtain ⟨g, hg, hviol⟩ := h
            rcases List.mem_cons.mp hg with rfl | hgfs
            · rcases hviol with hm | hs
              · exact absurd h2 hm
              · exact absurd hs h3
            · obtain ⟨e, he⟩ := ih (i + 1) ⟨g, hgfs, hviol⟩
              exact ⟨e, by simp [multerGo, h1, h2, h3, he]⟩
        · exact ⟨"Only PDF files are allowed", by simp [multerGo, h1, h2]⟩

/-- Claim C4: the multi-file ingest endpoint accepts at most 10 files per
request, only files whose MIME type is application/pdf, and only files of at
most 50 MiB each; a request containing a file that violates the type filter or
the size ceiling is rejected with an error and that file is not stored. -/
theorem ingest_upload_enforcement (gen : Nat → String) (dirname : String)
    (files : List IncomingFile) :
    (∀ stored, ingestUpload gen dirname files = Except.ok stored →
      stored.length ≤ 10 ∧ stored.length = files.length ∧
      ∀ f ∈ files, f.mimetype = "application/pdf" ∧ f.size ≤ ingestSizeLimit) ∧
    (10 < files.length → ∃ e, ingestUpload gen dirname files = Except.error e) ∧
    ((∃ f ∈ files, f.mimetype ≠ "application/pdf" ∨ ingestSizeLimit < f.size) →
      ∃ e, ingestUpload gen dirname files = Except.error e) := by
  refine ⟨?_, ?_, ?_⟩
  · intro stored h
    obtain ⟨hlen, hcap, hall⟩ :=
      multerGo_ok_sound gen dirname 10 ingestSizeLimit files 0 stored h
    refine ⟨?_, hlen, hall⟩
    cases files with
    | nil => simp at hlen; simp [hlen]
    | cons f fs =>
        have hle := hcap (by simp)
        rw [hlen]
        omega
  · intro hgt
    cases hres : ingestUpload gen dirname files with
    | error e => exact ⟨e, rfl⟩
    | ok stored =>
        obtain ⟨_, hcap, _⟩ :=
          multerGo_ok_sound gen dirname 10 ingestSizeLimit files 0 stored hres
        have hne : files ≠ [] := by
          cases files with
          | nil => simp at hgt
          | cons g gs => simp
        have := hcap hne
        omega
  · exact multerGo_violating_errors gen dirname 10 ingestSizeLimit files 0

/-- Witness for ingest_upload_enforcement: a request containing a text file is
rejected. -/
theorem ingest_upload_enforcement_witness :
    ∃ e, ingestUpload (fun _ => "111-222") "/srv/backend"
      [⟨"notes.txt", "text/plain", 5⟩] = Except.error e :=
  (ingest_upload_enforcement (fun _ => "111-222") "/srv/backend"
      [⟨"notes.txt", "text/plain", 5⟩]).2.2
    ⟨⟨"notes.txt", "text/plain", 5⟩, List.mem_singleton.mpr rfl, Or.inl (by decide)⟩

end Athena

